import Mathlib

/-!
Verification of the URL-Feed CRO-analyzer backend (`src/backend/app.py`)
against its natural-language specification.

The Python code is shallowly embedded: pure helpers become Lean functions,
Python `int` becomes `ℤ`/`ℕ`, wall-clock time (`time.time()`) becomes `ℤ`
(one tick = one unit of real time; the algorithms only use ordered-ring
operations on times, so nothing depends on the unit), exceptions become
`Except`/`Option`, and calls to external libraries (`requests`, `json.loads`,
`re.search`) become explicit oracle parameters whose concrete instantiations
are justified input by input.  Decimal values produced by Python's `float()`
are represented exactly as scaled integers `(m, k)` standing for `m / 10^k`.
-/

/-! ## Health score calculation (`calculate_health_score`, app.py lines 420-468) -/

structure HealthScore where
  value : ℤ
  category : String
  description : String
  deriving DecidableEq

/-- Embeds `min(10, max(5, overall_score // 10))` — Python `//` on a positive divisor is
floor division, which is `Int./` (Euclidean division) for the divisor 10. -/
def repBonus (overall_score : ℤ) : ℤ := min 10 (max 5 (overall_score / 10))

/-- The reputable-domain adjustment (app.py lines 431-435). -/
def adjust1 (overall_score : ℤ) (is_reputable : Bool) : ℤ :=
  if is_reputable then min 100 (overall_score + repBonus overall_score) else overall_score

/-- The optimization-indicator adjustment (app.py lines 438-442); note the
source only applies it when `optimization_indicators > 0`. -/
def adjust2 (score optimization_indicators : ℤ) : ℤ :=
  if 0 < optimization_indicators then min 100 (score + min 5 optimization_indicators) else score

def adjustedScore (overall_score : ℤ) (is_reputable : Bool) (optimization_indicators : ℤ) : ℤ :=
  adjust2 (adjust1 overall_score is_reputable) optimization_indicators

/-- The tier thresholds of app.py lines 445-462. -/
def tierCategory (score : ℤ) : String :=
  if 90 ≤ score then "Excellent"
  else if 80 ≤ score then "Very Good"
  else if 70 ≤ score then "Good"
  else if 60 ≤ score then "Needs Improvement"
  else if 50 ≤ score then "Poor"
  else "Critical"

/-- The fixed descriptions paired with the tiers (app.py lines 445-462). -/
def tierDescription (score : ℤ) : String :=
  if 90 ≤ score then "Your website is optimized for conversions with only minor improvements needed."
  else if 80 ≤ score then "Your website performs well but has some opportunities for improvement."
  else if 70 ≤ score then "Your website has a solid foundation but several areas need attention."
  else if 60 ≤ score then "Your website has some issues that may be impacting conversions."
  else if 50 ≤ score then "Your website has significant conversion issues that need attention."
  else "Your website has critical issues that are severely limiting conversions."

/-- Embeds `calculate_health_score` (app.py lines 420-468). -/
def calculate_health_score (overall_score : ℤ) (is_reputable : Bool)
    (optimization_indicators : ℤ) : HealthScore :=
  HealthScore.mk (adjustedScore overall_score is_reputable optimization_indicators)
    (tierCategory (adjustedScore overall_score is_reputable optimization_indicators))
    (tierDescription (adjustedScore overall_score is_reputable optimization_indicators))

/-! ## Dimension classifier (`is_large_dimension`, app.py lines 183-216) -/

/-- Character-wise lower-casing, the embedding of Python `str.lower()` on the
ASCII inputs the classifier deals with. -/
def lowerL (s : List Char) : List Char := s.map Char.toLower

def prefixMatch : List Char → List Char → Bool
  | [], _ => true
  | _ :: _, [] => false
  | c :: cs, d :: ds => c == d && prefixMatch cs ds

/-- Tests whether `pat` occurs as a contiguous substring — the embedding of Python `pat in s`. -/
def subMatch (pat : List Char) : List Char → Bool
  | [] => pat.isEmpty
  | c :: rest => prefixMatch pat (c :: rest) || subMatch pat rest

/-- Python `str.isdigit()` restricted to ASCII: nonempty and all characters `0`-`9`. -/
def strIsDigit (s : List Char) : Bool := !s.isEmpty && s.all Char.isDigit

/-- Embeds `int(...)` on a digit string. -/
def digitsToNat (s : List Char) : ℕ := s.foldl (fun a c => 10 * a + (c.toNat - 48)) 0

/-- Embeds `str.replace('%', '')`. -/
def removePct (s : List Char) : List Char := s.filter (fun c => !(c == '%'))

/-- Embeds `str.replace('px', '')`: removes the occurrences left to right. -/
def removePx : List Char → List Char
  | 'p' :: 'x' :: rest => removePx rest
  | c :: rest => c :: removePx rest
  | [] => []

/-- Python `float(...)` on unsigned decimal literals (`"12"`, `"12.5"`, `".5"`,
`"5."`); the value is represented exactly as `(m, k)` standing for `m / 10^k`.
Strings outside this grammar make `float` raise, modeled by `none`. -/
def floatParse (s : List Char) : Option (ℕ × ℕ) :=
  match s.splitOn '.' with
  | [a] => if !a.isEmpty && a.all Char.isDigit then some (digitsToNat a, 0) else none
  | [a, b] =>
      if (!a.isEmpty || !b.isEmpty) && a.all Char.isDigit && b.all Char.isDigit then
        some (digitsToNat a * 10 ^ b.length + digitsToNat b, b.length)
      else none
  | _ => none

/-- Compares `m / 10^k > bound`, stated over the exact scaled-integer representation. -/
def scaledGt (m k bound : ℕ) : Bool := decide (bound * 10 ^ k < m)

def pxChars : List Char := ['p', 'x']

def emChars : List Char := ['e', 'm']

def remChars : List Char := ['r', 'e', 'm']

def vwChars : List Char := ['v', 'w']

def vhChars : List Char := ['v', 'h']

def unitCharsList : List (List Char) := [emChars, remChars, vwChars, vhChars]

/-- Embeds `is_large_dimension` (app.py lines 183-216).  The branch structure follows
the source exactly: pure digit strings against `threshold`; `%` values against
80; `px` values against `threshold`; `em`/`rem` against 10 and `vw`/`vh`
against 50 (the two final unit tests inspect the original, un-lowered string,
as the source does). -/
def is_large_dimension (value : String) (threshold : ℕ) : Bool :=
  let v := value.toList
  if v.isEmpty then false
  else if strIsDigit v then decide (threshold < digitsToNat v)
  else if v.contains '%' then
    match floatParse (removePct v) with
    | some (m, k) => scaledGt m k 80
    | none => false
  else if subMatch pxChars (lowerL v) then
    strIsDigit (removePx (lowerL v)) && decide (threshold < digitsToNat (removePx (lowerL v)))
  else if unitCharsList.any (fun u => subMatch u (lowerL v)) then
    match floatParse (v.filter (fun c => c.isDigit || c == '.')) with
    | some (m, k) =>
        if subMatch emChars v || subMatch remChars v then scaledGt m k 10
        else if subMatch vwChars v || subMatch vhChars v then scaledGt m k 50
        else false
    | none => false
  else false

/-- The classifier at its default threshold 1200, as called from
`extract_website_content` (app.py lines 310-312). -/
def is_large (value : String) : Bool := is_large_dimension value 1200

/-- Well-formed member of the pixel family (plain digits or a `px`-suffixed
digit string), with its magnitude `n`. -/
abbrev PxWellFormed (s : String) (n : ℕ) : Prop :=
  (strIsDigit s.toList = true ∧ digitsToNat s.toList = n)
  ∨ (s.toList.isEmpty = false ∧ strIsDigit s.toList = false
      ∧ s.toList.contains '%' = false
      ∧ subMatch pxChars (lowerL s.toList) = true
      ∧ strIsDigit (removePx (lowerL s.toList)) = true
      ∧ digitsToNat (removePx (lowerL s.toList)) = n)

/-- Well-formed percentage value with magnitude `m / 10^k`. -/
abbrev PctWellFormed (s : String) (m k : ℕ) : Prop :=
  s.toList.contains '%' = true ∧ floatParse (removePct s.toList) = some (m, k)

/-- Well-formed `em`/`rem` value with magnitude `m / 10^k`. -/
abbrev EmWellFormed (s : String) (m k : ℕ) : Prop :=
  s.toList.isEmpty = false ∧ strIsDigit s.toList = false
  ∧ s.toList.contains '%' = false
  ∧ subMatch pxChars (lowerL s.toList) = false
  ∧ unitCharsList.any (fun u => subMatch u (lowerL s.toList)) = true
  ∧ (subMatch emChars s.toList || subMatch remChars s.toList) = true
  ∧ floatParse (s.toList.filter (fun c => c.isDigit || c == '.')) = some (m, k)

/-- Well-formed `vw`/`vh` value with magnitude `m / 10^k`. -/
abbrev VwWellFormed (s : String) (m k : ℕ) : Prop :=
  s.toList.isEmpty = false ∧ strIsDigit s.toList = false
  ∧ s.toList.contains '%' = false
  ∧ subMatch pxChars (lowerL s.toList) = false
  ∧ unitCharsList.any (fun u => subMatch u (lowerL s.toList)) = true
  ∧ (subMatch emChars s.toList || subMatch remChars s.toList) = false
  ∧ (subMatch vwChars s.toList || subMatch vhChars s.toList) = true
  ∧ floatParse (s.toList.filter (fun c => c.isDigit || c == '.')) = some (m, k)

/-! ## Gemini rate limiter (`GeminiRateLimiter` and `rate_limited_gemini_call`,
app.py lines 53-140).  Wall-clock time is modeled by `ℤ`; `time.sleep(x)`
advances the clock by `x`. -/

structure LimiterState where
  max_requests : ℕ
  per_minute : ℤ
  request_timestamps : List ℤ
  last_retry_time : ℤ
  retry_delay : ℤ
  deriving DecidableEq

/-- The rolling window `per_minute * 60`. -/
def LimiterState.window (s : LimiterState) : ℤ := s.per_minute * 60

/-- Embeds `GeminiRateLimiter.__init__` (defaults `max_requests=60`, `per_minute=1`). -/
def limiterInit (max_requests : ℕ) (per_minute : ℤ) : LimiterState :=
  LimiterState.mk max_requests per_minute [] 0 0

/-- The time at which execution resumes after the forced-retry sleep at the top
of `wait_if_needed` (app.py lines 73-76). -/
def retryResume (s : LimiterState) (now : ℤ) : ℤ :=
  if now < s.last_retry_time + s.retry_delay then s.last_retry_time + s.retry_delay else now

def winFilter (l : List ℤ) (w t : ℤ) : List ℤ := l.filter (fun ts => t - ts < w)

/-- The pruning of app.py lines 79-82; note the source keeps using the `current_time`
captured before the forced-retry sleep. -/
def pruneTimestamps (s : LimiterState) (now : ℤ) : List ℤ :=
  winFilter s.request_timestamps s.window now

/-- The real time at which `wait_if_needed` returns: after the forced-retry
sleep, plus the rate-limit sleep `window - (current_time - oldest)` when the
pruned list has reached `max_requests` (app.py lines 85-89). -/
def afterSleepTime (s : LimiterState) (now : ℤ) : ℤ :=
  if s.max_requests ≤ (pruneTimestamps s now).length then
    retryResume s now + (s.window - (now - (pruneTimestamps s now).headD 0))
  else retryResume s now

/-- Embeds `GeminiRateLimiter.wait_if_needed` (app.py lines 66-92): returns the state
after recording the call (the stale `current_time` is appended, as in the
source) and the real time at which the call proceeds. -/
def wait_if_needed (s : LimiterState) (now : ℤ) : LimiterState × ℤ :=
  ({ s with request_timestamps := pruneTimestamps s now ++ [now] }, afterSleepTime s now)

/-- Embeds `GeminiRateLimiter.handle_rate_limit_error` (app.py lines 94-109):
`errRetryDelay` is the service-provided `error.retry_delay.seconds`, absent
when the error carries none (then the default 30 applies). -/
def handle_rate_limit_error (s : LimiterState) (now : ℤ) (errRetryDelay : Option ℤ) : LimiterState :=
  { s with retry_delay := errRetryDelay.getD 30, last_retry_time := now }

/-- Number of recorded timestamps lying within the trailing window at time `t`. -/
def inWindowCount (s : LimiterState) (t : ℤ) : ℕ :=
  (winFilter s.request_timestamps s.window t).length

/-- External history acting on the shared limiter: an `acquire` (a wrapped call
arriving `delay` after the previous operation finished) or a quota-exceeded
signal handed to `handle_rate_limit_error`. -/
inductive LimEvent where
  | acquire (delay : ℤ)
  | rateError (delay : ℤ) (errRetryDelay : Option ℤ)
  deriving DecidableEq

def LimEvent.delta : LimEvent → ℤ
  | .acquire d => d
  | .rateError d _ => d

def stepEvent (c : LimiterState × ℤ) (e : LimEvent) : LimiterState × ℤ :=
  match e with
  | .acquire d => wait_if_needed c.1 (c.2 + d)
  | .rateError d r => (handle_rate_limit_error c.1 (c.2 + d) r, c.2 + d)

def runEvents (c : LimiterState × ℤ) (es : List LimEvent) : LimiterState × ℤ :=
  es.foldl stepEvent c

def quotaChars : List Char := ['q', 'u', 'o', 't', 'a']

def code429Chars : List Char := ['4', '2', '9']

/-- Embeds `'quota' in str(e).lower() or '429' in str(e)` (app.py line 129). -/
def isQuotaError (e : String) : Bool :=
  subMatch quotaChars (lowerL e.toList) || subMatch code429Chars e.toList

/-- The `rate_limited_gemini_call` wrapper (app.py lines 111-140).  The wrapped
function is an oracle `f` mapping the invocation index (0 = first attempt,
1 = retry) to its outcome; `str(e)` of a raised exception is the `error`
payload.  Result: (outcome, final limiter state, final clock, number of
invocations of `f`). -/
def rate_limited_gemini_call {α : Type} (s : LimiterState) (now : ℤ) (errRetryDelay : Option ℤ)
    (f : ℕ → Except String α) : Except String α × LimiterState × ℤ × ℕ :=
  match f 0 with
  | Except.ok a => (Except.ok a, (wait_if_needed s now).1, (wait_if_needed s now).2, 1)
  | Except.error e =>
      if isQuotaError e then
        (f 1,
         (wait_if_needed
            (handle_rate_limit_error (wait_if_needed s now).1 (wait_if_needed s now).2 errRetryDelay)
            (wait_if_needed s now).2).1,
         (wait_if_needed
            (handle_rate_limit_error (wait_if_needed s now).1 (wait_if_needed s now).2 errRetryDelay)
            (wait_if_needed s now).2).2,
         2)
      else (Except.error e, (wait_if_needed s now).1, (wait_if_needed s now).2, 1)

/-- A first call that raises a quota error (oracle for the C5 witness). -/
def quotaF : ℕ → Except String ℤ :=
  fun n => if n = 0 then Except.error "429 Resource exhausted: quota metric exceeded" else Except.ok 7

/-- Event trace for the C6 witness. -/
def c6Events : List LimEvent :=
  [LimEvent.acquire 0, LimEvent.acquire 10, LimEvent.rateError 0 (Option.some 5), LimEvent.acquire 0]

/-! ## Content cache and extraction pipeline (`cached_function`, app.py lines
157-180, and `extract_website_content`, app.py lines 232-370).

The extracted signal record is abstracted to a type parameter `α`; the network
fetch + HTML parse is an oracle `fetch` whose `.ok` is the extracted record and
whose `.error` is `str(e)` of the raised exception (network error, non-2xx
status via `raise_for_status`, or parse error). -/

/-- The `(data, success)` pair returned by `extract_website_content`:
`success d` is `(website_data, True)`, `failure e` is `({'error': e, ...}, False)`. -/
inductive FetchResult (α : Type) where
  | success (data : α)
  | failure (err : String)
  deriving DecidableEq

/-- The two caches: the decorator cache of `cached_function(expiry_seconds=600)`
(values paired with their store timestamp) and the unbounded secondary cache
`website_content_cache`.  The decorator key is `str(args) + str(kwargs)`, which
is injective on the single-string-argument calls made here, so keys are
modeled by the exact URL string.  Newer entries shadow older ones, matching
dict assignment. -/
structure ExtractState (α : Type) where
  decoCache : List (String × FetchResult α × ℤ)
  secondary : List (String × α)
  deriving DecidableEq

def assocFind {β : Type} : List (String × β) → String → Option β
  | [], _ => none
  | (k, v) :: rest, key => if k = key then some v else assocFind rest key

/-- The cache check of `cached_function` (app.py lines 167-172): a stored entry
is returned only while `now - timestamp < expiry`. -/
def cachedLookup {α : Type} (cache : List (String × FetchResult α × ℤ)) (key : String)
    (now expiry : ℤ) : Option (FetchResult α) :=
  match assocFind cache key with
  | some (r, ts) => if now - ts < expiry then some r else none
  | none => none

/-- The body of `extract_website_content` (app.py lines 234-370): secondary
cache probe, then the fetch+extract pipeline; only successes are stored in the
secondary cache.  The third component counts network fetches performed. -/
def extract_body {α : Type} (secondary : List (String × α)) (url : String)
    (fetch : String → Except String α) : FetchResult α × List (String × α) × ℕ :=
  match assocFind secondary url with
  | some d => (FetchResult.success d, secondary, 0)
  | none =>
      match fetch url with
      | Except.ok d => (FetchResult.success d, (url, d) :: secondary, 1)
      | Except.error e => (FetchResult.failure e, secondary, 1)

/-- Embeds `extract_website_content` as wrapped by `@cached_function(expiry_seconds=600)`
(app.py lines 157-180 and 232-233): on a decorator-cache miss the body runs and
its result — success or failure alike — is stored with the current timestamp. -/
def extract_website_content {α : Type} (st : ExtractState α) (url : String) (now : ℤ)
    (fetch : String → Except String α) : FetchResult α × ExtractState α × ℕ :=
  match cachedLookup st.decoCache url now 600 with
  | some r => (r, st, 0)
  | none =>
      ((extract_body st.secondary url fetch).1,
       ExtractState.mk ((url, (extract_body st.secondary url fetch).1, now) :: st.decoCache)
         (extract_body st.secondary url fetch).2.1,
       (extract_body st.secondary url fetch).2.2)

def emptyExtractState : ExtractState ℤ := ExtractState.mk [] []

def boomMsg : String := "boom"

/-- A fetch that always fails (oracle for the C1 counterexample and witness). -/
def brokenFetch : String → Except String ℤ := fun _ => Except.error boomMsg

/-- A fetch that always succeeds with the record 42 (oracle for the C9 witness). -/
def goodFetch : String → Except String ℤ := fun _ => Except.ok 42

/-! ## Report parsing and analysis (`parse_json_from_response`,
`create_default_response` and `analyze_website`, app.py lines 373-417 and
470-589).

`json.loads` is an oracle `jloads` returning the report fields when the string
parses as JSON and `none` when it raises; the two `re.search` extractions
(fenced code block with `.strip()`, first-to-last brace span) are oracles
`findBlock` and `findBrace` returning the extracted substring when the pattern
matches. -/

structure Issue where
  category : String
  description : String
  impact : String
  solution : String
  deriving DecidableEq

/-- The report record: `overall_score` and `health_score` are optional because a
salvaged JSON object may lack them (`"overall_score" in analysis_data` is
checked at app.py line 571). -/
structure AnalysisData where
  overall_score : Option ℤ
  health_score : Option HealthScore
  issues : List Issue
  deriving DecidableEq

/-- Embeds `create_default_response` (app.py lines 399-417). -/
def create_default_response : AnalysisData :=
  AnalysisData.mk (some 65)
    (some (HealthScore.mk 65 "Needs Improvement" "Several significant issues that need attention."))
    [Issue.mk "Error Processing" "We encountered an issue analyzing this website. Please try again." "High" "Refresh and retry the analysis."]

/-- Embeds `parse_json_from_response` (app.py lines 373-397).  The control flow follows
the source: whole-text parse first; then, inside one `try`, the fenced-block
extraction (a parse failure there raises out of the inner `try`, skipping the
brace strategy and falling to the default) and, only when no block matched,
the brace extraction.  An empty reply takes the `not text` guard. -/
def parse_json_from_response (jloads : String → Option AnalysisData)
    (findBlock findBrace : String → Option String) (text : String) : AnalysisData :=
  if text = "" then create_default_response
  else
    match jloads text with
    | some j => j
    | none =>
        match findBlock text with
        | some inner =>
            match jloads inner with
            | some j => j
            | none => create_default_response
        | none =>
            match findBrace text with
            | some braced =>
                match jloads braced with
                | some j => j
                | none => create_default_response
            | none => create_default_response

/-- The amended chain of claim C4, written from the amended wording: (a) whole
text; (b) when a fenced block is present, its content, a failure there going
straight to the default; (c) the brace span only when no fenced block exists;
default on failure of the attempted strategies. -/
def parse_json_amended (jloads : String → Option AnalysisData)
    (findBlock findBrace : String → Option String) (text : String) : AnalysisData :=
  if text = "" then create_default_response
  else
    match jloads text with
    | some j => j
    | none =>
        match findBlock text with
        | some inner => (jloads inner).getD create_default_response
        | none => ((findBrace text).bind jloads).getD create_default_response

/-- Embeds `analyze_website` (app.py lines 470-589), after the model call.  `genReply`
is the outcome of `model.generate_content(prompt).text` (`.error` = the call
raised); a reply is parsed with `parse_json_from_response`, the health score is
recomputed when `overall_score` is present, and the pair `(analysis_data, True)`
is returned; only a raised exception produces `(default, False)` (app.py lines
583-589). -/
def analyze_website (jloads : String → Option AnalysisData)
    (findBlock findBrace : String → Option String) (genReply : Except String String)
    (is_reputable : Bool) (optimization_indicators : ℤ) : AnalysisData × Bool :=
  match genReply with
  | Except.error _ => (create_default_response, false)
  | Except.ok text =>
      match (parse_json_from_response jloads findBlock findBrace text).overall_score with
      | some sc =>
          ({ parse_json_from_response jloads findBlock findBrace text with
             health_score := some (calculate_health_score sc is_reputable optimization_indicators) },
           true)
      | none => (parse_json_from_response jloads findBlock findBrace text, true)

def noneOracle : String → Option AnalysisData := fun _ => none

def noneStr : String → Option String := fun _ => none

/-- A plain-prose model reply: contains no JSON, no fenced block, no braces, so
`json.loads` fails on it, and both regex extractions fail (constant-`none`
oracles are faithful for it). -/
def proseReply : String := "Sorry, I cannot analyze this website right now."

/-- The brace-delimited span inside `cexText`. -/
def bracedJson : String := "\x7b\"overall_score\": 50\x7d"

/-- A reply with a fenced block whose content is not JSON, followed by a valid
brace-delimited JSON object. -/
def cexText : String := "```notjson``` \x7b\"overall_score\": 50\x7d"

def notJsonStr : String := "notjson"

def fiftyReport : AnalysisData := AnalysisData.mk (some 50) none []

/-- Models `json.loads` on the strings arising from `cexText`: the whole text and
`"notjson"` raise; the brace span parses to `{"overall_score": 50}`. -/
def cexJloads : String → Option AnalysisData :=
  fun s => if s = bracedJson then some fiftyReport else none

/-- The fenced-block regex on `cexText` captures (after `.strip()`) `"notjson"`. -/
def cexFindBlock : String → Option String :=
  fun s => if s = cexText then some notJsonStr else none

/-- The brace regex on `cexText` captures the span from the first `{` to the
last `}`. -/
def cexFindBrace : String → Option String :=
  fun s => if s = cexText then some bracedJson else none

/-! ## Theorems -/

lemma chs_value (s : ℤ) (rep : Bool) (c : ℤ) :
    (calculate_health_score s rep c).value = adjustedScore s rep c := rfl

lemma digit_ne_nil {l : List Char} (h : strIsDigit l = true) : l.isEmpty = false := by
  unfold strIsDigit at h
  rcases Bool.and_eq_true_iff.mp h with ⟨h1, _⟩
  simpa using h1

lemma contains_ne_nil {c : Char} {l : List Char} (h : l.contains c = true) : l.isEmpty = false := by
  cases l with
  | nil => simp at h
  | cons x xs => rfl

lemma pct_not_digit {l : List Char} (h : l.contains '%' = true) : strIsDigit l = false := by
  have hmem : '%' ∈ l := by
    simpa using h
  cases hall : strIsDigit l with
  | false => rfl
  | true =>
      unfold strIsDigit at hall
      rcases Bool.and_eq_true_iff.mp hall with ⟨_, h2⟩
      have := List.all_eq_true.mp h2 '%' hmem
      simp at this

lemma isLarge_px_eval {s : String} {n : ℕ} (h : PxWellFormed s n) :
    is_large s = decide (1200 < n) := by
  rcases h with ⟨hd, hn⟩ | ⟨he, hd, hp, hpx, hnd, hn⟩
  · have he := digit_ne_nil hd
    simp only [is_large, is_large_dimension, he, hd, hn]
    simp
  · simp only [is_large, is_large_dimension, he, hd, hp, hpx, hnd, hn]
    simp

lemma isLarge_pct_eval {s : String} {m k : ℕ} (h : PctWellFormed s m k) :
    is_large s = scaledGt m k 80 := by
  rcases h with ⟨hc, hf⟩
  have he := contains_ne_nil hc
  have hd := pct_not_digit hc
  simp only [is_large, is_large_dimension, he, hd, hc, hf]
  simp

lemma isLarge_em_eval {s : String} {m k : ℕ} (h : EmWellFormed s m k) :
    is_large s = scaledGt m k 10 := by
  rcases h with ⟨he, hd, hp, hpx, hu, hem, hf⟩
  simp only [is_large, is_large_dimension, he, hd, hp, hpx, hu, hem, hf]
  simp

lemma isLarge_vw_eval {s : String} {m k : ℕ} (h : VwWellFormed s m k) :
    is_large s = scaledGt m k 50 := by
  rcases h with ⟨he, hd, hp, hpx, hu, hem, hvw, hf⟩
  simp only [is_large, is_large_dimension, he, hd, hp, hpx, hu, hem, hvw, hf]
  simp

lemma scaled_mono {b m1 k1 m2 k2 : ℕ} (hle : m1 * 10 ^ k2 ≤ m2 * 10 ^ k1)
    (h : b * 10 ^ k1 < m1) : b * 10 ^ k2 < m2 := by
  have hp2 : 0 < (10 : ℕ) ^ k2 := pow_pos (by norm_num) k2
  have s2 : b * 10 ^ k2 * 10 ^ k1 < m2 * 10 ^ k1 := by
    calc b * 10 ^ k2 * 10 ^ k1 = b * 10 ^ k1 * 10 ^ k2 := by ring
    _ < m1 * 10 ^ k2 := mul_lt_mul_of_pos_right h hp2
    _ ≤ m2 * 10 ^ k1 := hle
  exact lt_of_mul_lt_mul_right s2 (Nat.zero_le _)

/-- Claim C8: the large-dimension classifier returns true for "1300", false for
"50%", true for "90%", true for "12em", true for "60vw" and false for ""; and
within each unit family (pixels with threshold 1200, percent with threshold 80,
em/rem with threshold 10, vw/vh with threshold 50) the classification is
monotone in the numeric magnitude (magnitudes `m / 10^k` are compared exactly
via `m1 * 10^k2 ≤ m2 * 10^k1`). -/
theorem C8_large_dimension :
    (is_large "1300" = true ∧ is_large "50%" = false ∧ is_large "90%" = true
      ∧ is_large "12em" = true ∧ is_large "60vw" = true ∧ is_large "" = false)
  ∧ (∀ s1 s2 n1 n2, PxWellFormed s1 n1 → PxWellFormed s2 n2 → n1 ≤ n2 →
        is_large s1 = true → is_large s2 = true)
  ∧ (∀ s1 s2 m1 k1 m2 k2, PctWellFormed s1 m1 k1 → PctWellFormed s2 m2 k2 →
        m1 * 10 ^ k2 ≤ m2 * 10 ^ k1 → is_large s1 = true → is_large s2 = true)
  ∧ (∀ s1 s2 m1 k1 m2 k2, EmWellFormed s1 m1 k1 → EmWellFormed s2 m2 k2 →
        m1 * 10 ^ k2 ≤ m2 * 10 ^ k1 → is_large s1 = true → is_large s2 = true)
  ∧ (∀ s1 s2 m1 k1 m2 k2, VwWellFormed s1 m1 k1 → VwWellFormed s2 m2 k2 →
        m1 * 10 ^ k2 ≤ m2 * 10 ^ k1 → is_large s1 = true → is_large s2 = true) := by
  refine ⟨by decide, ?_, ?_, ?_, ?_⟩
  · intro s1 s2 n1 n2 h1 h2 hle hbig
    rw [isLarge_px_eval h1] at hbig
    rw [isLarge_px_eval h2]
    simp only [decide_eq_true_eq] at hbig ⊢
    omega
  · intro s1 s2 m1 k1 m2 k2 h1 h2 hle hbig
    rw [isLarge_pct_eval h1] at hbig
    rw [isLarge_pct_eval h2]
    simp only [scaledGt, decide_eq_true_eq] at hbig ⊢
    exact scaled_mono hle hbig
  · intro s1 s2 m1 k1 m2 k2 h1 h2 hle hbig
    rw [isLarge_em_eval h1] at hbig
    rw [isLarge_em_eval h2]
    simp only [scaledGt, decide_eq_true_eq] at hbig ⊢
    exact scaled_mono hle hbig
  · intro s1 s2 m1 k1 m2 k2 h1 h2 hle hbig
    rw [isLarge_vw_eval h1] at hbig
    rw [isLarge_vw_eval h2]
    simp only [scaledGt, decide_eq_true_eq] at hbig ⊢
    exact scaled_mono hle hbig

/-- Witness for C8: monotonicity applied at the concrete percent values
"85%" and "90%". -/
theorem C8_witness :
    (PctWellFormed "85%" 85 0 ∧ PctWellFormed "90%" 90 0
      ∧ 85 * 10 ^ 0 ≤ 90 * 10 ^ 0 ∧ is_large "85%" = true)
    ∧ is_large "90%" = true :=
  ⟨by decide,
   C8_large_dimension.2.2.1 "85%" "90%" 85 0 90 0 (by decide) (by decide) (by decide) (by decide)⟩

/-- Claim C3: for overall scores in [0,100], the health-score adjustment equals
adding the reputation bonus `min(10, max(5, score // 10))` when reputable
(capped at 100) and then `min(5, optimization_indicators)` (capped at 100);
in particular `repBonus 80 = 8` and score 80 with a reputable domain and zero
indicators adjusts to exactly 88. -/
theorem C3_reputation_bonus (s c : ℤ) (rep : Bool) (h0 : 0 ≤ s) (h1 : s ≤ 100) (hc : 0 ≤ c) :
    (calculate_health_score s rep c).value
      = min 100 ((if rep then min 100 (s + min 10 (max 5 (s / 10))) else s) + min 5 c)
    ∧ repBonus 80 = 8 ∧ (calculate_health_score 80 true 0).value = 88 := by
  refine ⟨?_, by decide, by decide⟩
  rw [chs_value]
  unfold adjustedScore adjust1 adjust2 repBonus
  split_ifs <;> omega

/-- Witness for C3 at the claim's own instance (score 80, reputable, zero
indicators). -/
theorem C3_witness :
    ((0:ℤ) ≤ 80 ∧ (80:ℤ) ≤ 100 ∧ (0:ℤ) ≤ 0) ∧ (calculate_health_score 80 true 0).value = 88 :=
  ⟨by decide, (C3_reputation_bonus 80 0 true (by decide) (by decide) (by decide)).2.2⟩

/-- Claim C7: the tier map is a total non-overlapping partition with boundaries
Critical < 50, Poor 50-59, Needs Improvement 60-69, Good 70-79, Very Good
80-89, Excellent ≥ 90, each paired with its fixed description. -/
theorem C7_tier_partition (s : ℤ) :
    ((tierCategory s = "Critical" ∧ tierDescription s = "Your website has critical issues that are severely limiting conversions.") ↔ s < 50)
  ∧ ((tierCategory s = "Poor" ∧ tierDescription s = "Your website has significant conversion issues that need attention.") ↔ 50 ≤ s ∧ s ≤ 59)
  ∧ ((tierCategory s = "Needs Improvement" ∧ tierDescription s = "Your website has some issues that may be impacting conversions.") ↔ 60 ≤ s ∧ s ≤ 69)
  ∧ ((tierCategory s = "Good" ∧ tierDescription s = "Your website has a solid foundation but several areas need attention.") ↔ 70 ≤ s ∧ s ≤ 79)
  ∧ ((tierCategory s = "Very Good" ∧ tierDescription s = "Your website performs well but has some opportunities for improvement.") ↔ 80 ≤ s ∧ s ≤ 89)
  ∧ ((tierCategory s = "Excellent" ∧ tierDescription s = "Your website is optimized for conversions with only minor improvements needed.") ↔ 90 ≤ s) := by
  unfold tierCategory tierDescription
  split_ifs with h1 h2 h3 h4 h5 <;>
    refine ⟨?_, ?_, ?_, ?_, ?_, ?_⟩ <;>
    constructor <;>
    intro h <;>
    first
      | exact ⟨rfl, rfl⟩
      | omega
      | exact absurd h.1 (by decide)
      | (exfalso; omega)

/-- Witness for C7 at score 85 (Very Good). -/
theorem C7_witness :
    (tierCategory 85 = "Very Good" ∧ tierDescription 85 = "Your website performs well but has some opportunities for improvement.") :=
  (C7_tier_partition 85).2.2.2.2.1.mpr (by decide)

/-- Counterexample to claim C10 as stated: for `overall_score = 200` with a
reputable domain the returned value is 100, which is not at least the input
score. -/
theorem C10_counterexample :
    (calculate_health_score 200 true 0).value = 100
    ∧ ¬(200 ≤ (calculate_health_score 200 true 0).value) := by decide

/-- Claim C10 (amended): the returned value is at least `min(overall_score, 100)`
(hence at least `overall_score` whenever the input is at most 100), at most
`max(overall_score, 100)`, and monotone non-decreasing in `overall_score` for
fixed reputation flag and indicator count. -/
theorem C10_bounds_monotone (s c : ℤ) (rep : Bool) (hc : 0 ≤ c) :
    min s 100 ≤ (calculate_health_score s rep c).value
    ∧ (calculate_health_score s rep c).value ≤ max s 100
    ∧ ∀ s', s ≤ s' → (calculate_health_score s rep c).value ≤ (calculate_health_score s' rep c).value := by
  refine ⟨?_, ?_, ?_⟩
  · rw [chs_value]
    unfold adjustedScore adjust1 adjust2 repBonus
    split_ifs <;> omega
  · rw [chs_value]
    unfold adjustedScore adjust1 adjust2 repBonus
    split_ifs <;> omega
  · intro s' hs
    rw [chs_value, chs_value]
    unfold adjustedScore adjust1 adjust2 repBonus
    split_ifs <;> omega

/-- Witness for C10 (amended) at score 50, reputable, three indicators. -/
theorem C10_witness :
    ((0:ℤ) ≤ 3) ∧ min (50:ℤ) 100 ≤ (calculate_health_score 50 true 3).value :=
  ⟨by decide, (C10_bounds_monotone 50 3 true (by decide)).1⟩

lemma winFilter_length_mono (l : List ℤ) (w t t' : ℤ) (h : t ≤ t') :
    (winFilter l w t').length ≤ (winFilter l w t).length := by
  unfold winFilter
  induction l with
  | nil => simp
  | cons x xs ih =>
      rw [List.filter_cons, List.filter_cons]
      by_cases h2 : t - x < w
      · by_cases h1 : t' - x < w
        · rw [if_pos (by simpa using h1), if_pos (by simpa using h2)]
          simp only [List.length_cons]
          omega
        · rw [if_neg (by simpa using h1), if_pos (by simpa using h2)]
          simp only [List.length_cons]
          omega
      · have h1 : ¬(t' - x < w) := by omega
        rw [if_neg (by simpa using h1), if_neg (by simpa using h2)]
        exact ih

lemma winFilter_append_bound (l : List ℤ) (w now t : ℤ) :
    (winFilter (l ++ [now]) w t).length ≤ l.length + 1 := by
  unfold winFilter
  calc (List.filter (fun ts => decide (t - ts < w)) (l ++ [now])).length
      ≤ (l ++ [now]).length := List.length_filter_le _ _
  _ = l.length + 1 := by simp

lemma winFilter_cons_drop (hd : ℤ) (tl : List ℤ) (w t now : ℤ) (hhd : ¬(t - hd < w)) :
    (winFilter ((hd :: tl) ++ [now]) w t).length ≤ tl.length + 1 := by
  unfold winFilter
  rw [List.cons_append, List.filter_cons, if_neg (by simpa using hhd)]
  calc (List.filter (fun ts => decide (t - ts < w)) (tl ++ [now])).length
      ≤ (tl ++ [now]).length := List.length_filter_le _ _
  _ = tl.length + 1 := by simp

lemma prune_head_in_window {s : LimiterState} {now hd : ℤ} {tl : List ℤ}
    (hp : pruneTimestamps s now = hd :: tl) : now - hd < s.window := by
  have hm : hd ∈ pruneTimestamps s now := by
    rw [hp]
    exact List.mem_cons_self _ _
  unfold pruneTimestamps winFilter at hm
  have := (List.mem_filter.mp hm).2
  exact of_decide_eq_true this

lemma retryResume_ge (s : LimiterState) (now : ℤ) : now ≤ retryResume s now := by
  unfold retryResume
  split <;> omega

lemma retryResume_le_after (s : LimiterState) (now : ℤ) (hmax : 1 ≤ s.max_requests) :
    retryResume s now ≤ afterSleepTime s now := by
  unfold afterSleepTime
  by_cases hb : s.max_requests ≤ (pruneTimestamps s now).length
  · rw [if_pos hb]
    cases hp : pruneTimestamps s now with
    | nil =>
        rw [hp] at hb
        simp at hb
        omega
    | cons hd tl =>
        have hdwin : now - hd < s.window := prune_head_in_window hp
        show retryResume s now ≤ retryResume s now + (s.window - (now - hd))
        omega
  · rw [if_neg hb]

lemma wait_preserves_inv (s : LimiterState) (now : ℤ)
    (hmax : 1 ≤ s.max_requests)
    (hpr : (pruneTimestamps s now).length ≤ s.max_requests) :
    inWindowCount (wait_if_needed s now).1 (wait_if_needed s now).2 ≤ s.max_requests := by
  have hresume : now ≤ retryResume s now := retryResume_ge s now
  show (winFilter (pruneTimestamps s now ++ [now]) s.window (afterSleepTime s now)).length
        ≤ s.max_requests
  by_cases hb : s.max_requests ≤ (pruneTimestamps s now).length
  · have hlen : (pruneTimestamps s now).length = s.max_requests := le_antisymm hpr hb
    cases hp : pruneTimestamps s now with
    | nil =>
        rw [hp] at hlen
        simp at hlen
        omega
    | cons hd tl =>
        have hdwin : now - hd < s.window := prune_head_in_window hp
        have hT : afterSleepTime s now = retryResume s now + (s.window - (now - hd)) := by
          unfold afterSleepTime
          rw [if_pos hb, hp]
          rfl
        have hdrop : ¬(afterSleepTime s now - hd < s.window) := by
          rw [hT]
          omega
        have hbd := winFilter_cons_drop hd tl s.window (afterSleepTime s now) now hdrop
        have hlen' : tl.length + 1 = s.max_requests := by
          rw [hp] at hlen
          simpa using hlen
        omega
  · have hbd := winFilter_append_bound (pruneTimestamps s now) s.window now (afterSleepTime s now)
    omega

lemma stepEvent_inv (c : LimiterState × ℤ) (e : LimEvent) (hdel : 0 ≤ e.delta)
    (hmax : 1 ≤ c.1.max_requests) (hinv : inWindowCount c.1 c.2 ≤ c.1.max_requests) :
    inWindowCount (stepEvent c e).1 (stepEvent c e).2 ≤ (stepEvent c e).1.max_requests
    ∧ (stepEvent c e).1.max_requests = c.1.max_requests := by
  cases e with
  | acquire d =>
      simp only [LimEvent.delta] at hdel
      have hpr : (pruneTimestamps c.1 (c.2 + d)).length ≤ c.1.max_requests := by
        have hmono := winFilter_length_mono c.1.request_timestamps c.1.window c.2 (c.2 + d) (by omega)
        unfold inWindowCount at hinv
        unfold pruneTimestamps
        omega
      exact ⟨wait_preserves_inv c.1 (c.2 + d) hmax hpr, rfl⟩
  | rateError d r =>
      simp only [LimEvent.delta] at hdel
      refine ⟨?_, rfl⟩
      show (winFilter c.1.request_timestamps c.1.window (c.2 + d)).length ≤ c.1.max_requests
      have hmono := winFilter_length_mono c.1.request_timestamps c.1.window c.2 (c.2 + d) (by omega)
      unfold inWindowCount at hinv
      omega

lemma runEvents_inv (es : List LimEvent) :
    ∀ c : LimiterState × ℤ, (∀ e ∈ es, 0 ≤ e.delta) → 1 ≤ c.1.max_requests →
      inWindowCount c.1 c.2 ≤ c.1.max_requests →
      inWindowCount (runEvents c es).1 (runEvents c es).2 ≤ c.1.max_requests := by
  induction es with
  | nil =>
      intro c _ _ h
      simpa [runEvents] using h
  | cons e es ih =>
      intro c hval hmax hinv
      have hstep := stepEvent_inv c e (hval e (List.mem_cons_self _ _)) hmax hinv
      have h1 : runEvents c (e :: es) = runEvents (stepEvent c e) es := rfl
      rw [h1]
      have hmax' : 1 ≤ (stepEvent c e).1.max_requests := by
        rw [hstep.2]
        exact hmax
      have hres := ih (stepEvent c e) (fun x hx => hval x (List.mem_cons_of_mem _ hx)) hmax' hstep.1
      rw [hstep.2] at hres
      exact hres

lemma deadline_le_retryResume (s : LimiterState) (now : ℤ) (hd : 0 ≤ s.retry_delay)
    (hl : s.last_retry_time = now) : now + s.retry_delay ≤ retryResume s now := by
  unfold retryResume
  split <;> omega

/-- Claim C6: (1) starting from a fresh limiter, after any valid sequence of
acquire / quota-error events the number of recorded timestamps within the
trailing window `per_minute * 60` never exceeds `max_requests` at the moment a
call is recorded; (2) when a forced-retry deadline is set and not yet elapsed,
`wait_if_needed` waits at least until that deadline before the window-count
check runs (`retryResume`) and before it returns. -/
theorem C6_limiter_invariant :
    (∀ (maxR : ℕ) (pm : ℤ) (es : List LimEvent), 1 ≤ maxR →
        (∀ e ∈ es, 0 ≤ e.delta) →
        inWindowCount (runEvents (limiterInit maxR pm, 0) es).1
            (runEvents (limiterInit maxR pm, 0) es).2 ≤ maxR)
  ∧ (∀ (s : LimiterState) (now : ℤ), now < s.last_retry_time + s.retry_delay →
        s.last_retry_time + s.retry_delay ≤ retryResume s now
        ∧ (1 ≤ s.max_requests → s.last_retry_time + s.retry_delay ≤ (wait_if_needed s now).2)) := by
  constructor
  · intro maxR pm es h1 h2
    exact runEvents_inv es (limiterInit maxR pm, 0) h2 h1 (by simp [inWindowCount, winFilter, limiterInit])
  · intro s now hlt
    have h1 : s.last_retry_time + s.retry_delay ≤ retryResume s now := by
      unfold retryResume
      rw [if_pos hlt]
    exact ⟨h1, fun hmax => le_trans h1 (retryResume_le_after s now hmax)⟩

/-- Witness for C6: a concrete four-event trace against a quota of 2. -/
theorem C6_witness :
    ((1:ℕ) ≤ 2 ∧ (∀ e ∈ c6Events, 0 ≤ e.delta))
    ∧ inWindowCount (runEvents (limiterInit 2 1, 0) c6Events).1
        (runEvents (limiterInit 2 1, 0) c6Events).2 ≤ 2 :=
  ⟨⟨by decide, by decide⟩, C6_limiter_invariant.1 2 1 c6Events (by decide) (by decide)⟩

/-- Claim C5: a successful first invocation is returned directly (one call); a
first invocation failing with a quota error (text containing "quota" or "429")
sets the forced-retry deadline, waits it out, and retries exactly once, the
retry outcome (success or failure) propagating; any other error propagates
immediately with no retry. -/
theorem C5_retry_once {α : Type} (s : LimiterState) (now : ℤ) (errRetryDelay : Option ℤ)
    (f : ℕ → Except String α) :
    (∀ a, f 0 = Except.ok a →
        rate_limited_gemini_call s now errRetryDelay f
          = (Except.ok a, (wait_if_needed s now).1, (wait_if_needed s now).2, 1))
  ∧ (∀ e, f 0 = Except.error e → isQuotaError e = false →
        rate_limited_gemini_call s now errRetryDelay f
          = (Except.error e, (wait_if_needed s now).1, (wait_if_needed s now).2, 1))
  ∧ (∀ e, f 0 = Except.error e → isQuotaError e = true →
        (rate_limited_gemini_call s now errRetryDelay f).1 = f 1
        ∧ (rate_limited_gemini_call s now errRetryDelay f).2.2.2 = 2
        ∧ (rate_limited_gemini_call s now errRetryDelay f).2.1.last_retry_time
            = (wait_if_needed s now).2
        ∧ (rate_limited_gemini_call s now errRetryDelay f).2.1.retry_delay
            = errRetryDelay.getD 30
        ∧ (1 ≤ s.max_requests → 0 ≤ errRetryDelay.getD 30 →
            (wait_if_needed s now).2 + errRetryDelay.getD 30
              ≤ (rate_limited_gemini_call s now errRetryDelay f).2.2.1)) := by
  refine ⟨?_, ?_, ?_⟩
  · intro a hf
    unfold rate_limited_gemini_call
    rw [hf]
  · intro e hf hq
    unfold rate_limited_gemini_call
    rw [hf]
    simp [hq]
  · intro e hf hq
    unfold rate_limited_gemini_call
    simp only [hf]
    rw [if_pos hq]
    refine ⟨rfl, rfl, rfl, rfl, ?_⟩
    intro hmax hdel
    set s2 := handle_rate_limit_error (wait_if_needed s now).1 (wait_if_needed s now).2 errRetryDelay with hs2
    have hlast : s2.last_retry_time = (wait_if_needed s now).2 := rfl
    have hdelay : s2.retry_delay = errRetryDelay.getD 30 := rfl
    have hmax2 : 1 ≤ s2.max_requests := hmax
    have h1 : (wait_if_needed s now).2 + errRetryDelay.getD 30
        ≤ retryResume s2 (wait_if_needed s now).2 := by
      have := deadline_le_retryResume s2 (wait_if_needed s now).2 (by rw [hdelay]; exact hdel) hlast
      rw [hdelay] at this
      exact this
    exact le_trans h1 (retryResume_le_after s2 (wait_if_needed s now).2 hmax2)

/-- Witness for C5: the quota-error path at a concrete oracle. -/
theorem C5_witness :
    (quotaF 0 = Except.error "429 Resource exhausted: quota metric exceeded"
      ∧ isQuotaError "429 Resource exhausted: quota metric exceeded" = true)
    ∧ (rate_limited_gemini_call (limiterInit 60 1) 0 (Option.some 4) quotaF).1 = quotaF 1
    ∧ (rate_limited_gemini_call (limiterInit 60 1) 0 (Option.some 4) quotaF).2.2.2 = 2 :=
  ⟨⟨rfl, by decide⟩,
   ((C5_retry_once (limiterInit 60 1) 0 (Option.some 4) quotaF).2.2
      "429 Resource exhausted: quota metric exceeded" rfl (by decide)).1,
   ((C5_retry_once (limiterInit 60 1) 0 (Option.some 4) quotaF).2.2
      "429 Resource exhausted: quota metric exceeded" rfl (by decide)).2.1⟩

lemma extract_hit {α : Type} (st : ExtractState α) (url : String) (now : ℤ)
    (fetch : String → Except String α) (r : FetchResult α)
    (h : cachedLookup st.decoCache url now 600 = some r) :
    extract_website_content st url now fetch = (r, st, 0) := by
  unfold extract_website_content
  rw [h]

lemma extract_miss {α : Type} (st : ExtractState α) (url : String) (now : ℤ)
    (fetch : String → Except String α)
    (h : cachedLookup st.decoCache url now 600 = none) :
    extract_website_content st url now fetch
      = ((extract_body st.secondary url fetch).1,
         ExtractState.mk ((url, (extract_body st.secondary url fetch).1, now) :: st.decoCache)
           (extract_body st.secondary url fetch).2.1,
         (extract_body st.secondary url fetch).2.2) := by
  unfold extract_website_content
  rw [h]

lemma cachedLookup_cons_hit {α : Type} (rest : List (String × FetchResult α × ℤ))
    (url : String) (r : FetchResult α) (ts now expiry : ℤ) (h : now - ts < expiry) :
    cachedLookup ((url, r, ts) :: rest) url now expiry = some r := by
  have ha : assocFind ((url, r, ts) :: rest) url = some (r, ts) := by
    unfold assocFind
    exact if_pos rfl
  unfold cachedLookup
  rw [ha]
  exact if_pos h

lemma cachedLookup_cons_expired {α : Type} (rest : List (String × FetchResult α × ℤ))
    (url : String) (r : FetchResult α) (ts now expiry : ℤ) (h : ¬(now - ts < expiry)) :
    cachedLookup ((url, r, ts) :: rest) url now expiry = none := by
  have ha : assocFind ((url, r, ts) :: rest) url = some (r, ts) := by
    unfold assocFind
    exact if_pos rfl
  unfold cachedLookup
  rw [ha]
  exact if_neg h

lemma cachedLookup_cons_other {α : Type} (rest : List (String × FetchResult α × ℤ))
    (url : String) (r : FetchResult α) (ts : ℤ) (url2 : String) (now expiry : ℤ)
    (hne : url2 ≠ url) :
    cachedLookup ((url, r, ts) :: rest) url2 now expiry = cachedLookup rest url2 now expiry := by
  have ha : assocFind ((url, r, ts) :: rest) url2 = assocFind rest url2 := by
    show (if url = url2 then some (r, ts) else assocFind rest url2) = assocFind rest url2
    exact if_neg (fun h : url = url2 => hne h.symm)
  unfold cachedLookup
  rw [ha]

/-- Counterexample to claim C1 as stated: a failing URL's failure result IS
stored in the decorator cache, and a second call within the TTL returns the
stored failure with zero fetches instead of re-running the pipeline. -/
theorem C1_counterexample :
    (extract_website_content emptyExtractState "http://broken.example" 0 brokenFetch).1
        = FetchResult.failure boomMsg
    ∧ (extract_website_content emptyExtractState "http://broken.example" 0 brokenFetch).2.1.decoCache
        = [("http://broken.example", FetchResult.failure boomMsg, 0)]
    ∧ (extract_website_content
        (extract_website_content emptyExtractState "http://broken.example" 0 brokenFetch).2.1
        "http://broken.example" 1 brokenFetch).2.2 = 0
    ∧ (extract_website_content
        (extract_website_content emptyExtractState "http://broken.example" 0 brokenFetch).2.1
        "http://broken.example" 1 brokenFetch).1 = FetchResult.failure boomMsg := by decide

/-- Claim C1 (amended): a fetch failure is not stored in the unbounded secondary
cache, but the decorator TTL cache stores it like any result, so a call within
the 600-second TTL returns the stored failure without re-running the pipeline;
once the entry has expired the pipeline re-runs (one fetch again). -/
theorem C1_failure_caching {α : Type} (st : ExtractState α) (url : String) (now : ℤ)
    (fetch : String → Except String α) (e : String)
    (hmiss : cachedLookup st.decoCache url now 600 = none)
    (hsec : assocFind st.secondary url = none)
    (hfetch : fetch url = Except.error e) :
    (extract_website_content st url now fetch).1 = FetchResult.failure e
    ∧ (extract_website_content st url now fetch).2.1.secondary = st.secondary
    ∧ (extract_website_content st url now fetch).2.1.decoCache
        = (url, FetchResult.failure e, now) :: st.decoCache
    ∧ (∀ t1, t1 - now < 600 →
        (extract_website_content (extract_website_content st url now fetch).2.1 url t1 fetch).1
            = FetchResult.failure e
        ∧ (extract_website_content (extract_website_content st url now fetch).2.1 url t1 fetch).2.2
            = 0)
    ∧ (∀ t1, 600 ≤ t1 - now →
        (extract_website_content (extract_website_content st url now fetch).2.1 url t1 fetch).2.2
            = 1) := by
  have hbody : extract_body st.secondary url fetch = (FetchResult.failure e, st.secondary, 1) := by
    unfold extract_body
    rw [hsec, hfetch]
  have hm := extract_miss st url now fetch hmiss
  rw [hbody] at hm
  refine ⟨by rw [hm], by rw [hm], by rw [hm], ?_, ?_⟩
  · intro t1 ht
    rw [hm]
    rw [extract_hit _ url t1 fetch (FetchResult.failure e)
          (cachedLookup_cons_hit st.decoCache url (FetchResult.failure e) now t1 600 ht)]
    exact ⟨rfl, rfl⟩
  · intro t1 ht
    rw [hm]
    have hexp : cachedLookup ((url, FetchResult.failure e, now) :: st.decoCache) url t1 600
        = none :=
      cachedLookup_cons_expired st.decoCache url (FetchResult.failure e) now t1 600 (by omega)
    rw [extract_miss _ url t1 fetch hexp]
    have hbody2 : extract_body st.secondary url fetch = (FetchResult.failure e, st.secondary, 1) :=
      hbody
    rw [hbody2]

/-- Witness for C1 (amended) at a concrete broken URL. -/
theorem C1_witness :
    (cachedLookup (emptyExtractState.decoCache) "http://down.example" 0 600 = none
      ∧ assocFind emptyExtractState.secondary "http://down.example" = none
      ∧ brokenFetch "http://down.example" = Except.error boomMsg)
    ∧ (extract_website_content
        (extract_website_content emptyExtractState "http://down.example" 0 brokenFetch).2.1
        "http://down.example" 5 brokenFetch).2.2 = 0 :=
  ⟨⟨rfl, rfl, rfl⟩,
   ((C1_failure_caching emptyExtractState "http://down.example" 0 brokenFetch boomMsg
      rfl rfl rfl).2.2.2.1 5 (by decide)).2⟩

/-- Claim C9: after a first call that actually ran the pipeline and succeeded, a
second call with the same URL within the 600-second TTL performs no fetch,
returns the identical result, and leaves the state unchanged; and the freshly
stored entry is invisible to any different URL string (exact-string keying). -/
theorem C9_cache_hit {α : Type} (st : ExtractState α) (url : String) (t0 : ℤ)
    (fetch : String → Except String α) (d : α)
    (hmiss : cachedLookup st.decoCache url t0 600 = none)
    (hsucc : (extract_website_content st url t0 fetch).1 = FetchResult.success d) :
    ∀ t1 : ℤ, t1 - t0 < 600 →
      (extract_website_content (extract_website_content st url t0 fetch).2.1 url t1 fetch).1
          = FetchResult.success d
      ∧ (extract_website_content (extract_website_content st url t0 fetch).2.1 url t1 fetch).2.2
          = 0
      ∧ (extract_website_content (extract_website_content st url t0 fetch).2.1 url t1 fetch).2.1
          = (extract_website_content st url t0 fetch).2.1
      ∧ ∀ url2, url2 ≠ url →
          cachedLookup (extract_website_content st url t0 fetch).2.1.decoCache url2 t1 600
              = cachedLookup st.decoCache url2 t1 600 := by
  intro t1 ht
  have hm := extract_miss st url t0 fetch hmiss
  have hr : (extract_body st.secondary url fetch).1 = FetchResult.success d := by
    rw [hm] at hsucc
    exact hsucc
  rw [hr] at hm
  rw [hm]
  have hl : cachedLookup ((url, FetchResult.success d, t0) :: st.decoCache) url t1 600
      = some (FetchResult.success d) :=
    cachedLookup_cons_hit st.decoCache url (FetchResult.success d) t0 t1 600 ht
  rw [extract_hit _ url t1 fetch (FetchResult.success d) hl]
  refine ⟨rfl, rfl, rfl, ?_⟩
  intro url2 hne
  exact cachedLookup_cons_other st.decoCache url (FetchResult.success d) t0 url2 t1 600 hne

/-- Witness for C9 at a concrete URL and fetch oracle. -/
theorem C9_witness :
    (cachedLookup (emptyExtractState.decoCache) "https://example.com" 0 600 = none
      ∧ (extract_website_content emptyExtractState "https://example.com" 0 goodFetch).1
          = FetchResult.success 42
      ∧ (1:ℤ) - 0 < 600)
    ∧ (extract_website_content
        (extract_website_content emptyExtractState "https://example.com" 0 goodFetch).2.1
        "https://example.com" 1 goodFetch).2.2 = 0 :=
  ⟨⟨rfl, by decide, by decide⟩,
   ((C9_cache_hit emptyExtractState "https://example.com" 0 goodFetch 42 rfl (by decide))
      1 (by decide)).2.1⟩

/-- Counterexample to claim C4 as stated: on a reply whose fenced code block
fails to parse, the function returns the default even though the brace
strategy (c) would succeed — strategy (c) is skipped, so the default is not
reserved for "all three fail". -/
theorem C4_counterexample :
    parse_json_from_response cexJloads cexFindBlock cexFindBrace cexText = create_default_response
    ∧ cexJloads cexText = none
    ∧ cexFindBlock cexText = some notJsonStr
    ∧ cexJloads notJsonStr = none
    ∧ cexFindBrace cexText = some bracedJson
    ∧ cexJloads bracedJson = some fiftyReport
    ∧ fiftyReport ≠ create_default_response := by decide

/-- Claim C4 (amended): the salvage order is (a) whole text; then (b) the fenced
block when one is present, a parse failure inside it falling straight to the
default without attempting (c); (c) the brace span only when no fenced block
exists; and the default when the attempted strategies fail.  The function is
total, so no input makes it raise. -/
theorem C4_parse_chain (jloads : String → Option AnalysisData)
    (findBlock findBrace : String → Option String) (text : String) :
    parse_json_from_response jloads findBlock findBrace text
      = parse_json_amended jloads findBlock findBrace text := by
  unfold parse_json_from_response parse_json_amended
  by_cases he : text = ""
  · rw [if_pos he, if_pos he]
  · rw [if_neg he, if_neg he]
    cases hj : jloads text with
    | some j => simp [hj]
    | none =>
        cases hb : findBlock text with
        | some inner =>
            cases hji : jloads inner with
            | some j => simp [hj, hb, hji]
            | none => simp [hj, hb, hji]
        | none =>
            cases hbr : findBrace text with
            | some braced =>
                cases hjb : jloads braced with
                | some j => simp [hj, hb, hbr, hjb]
                | none => simp [hj, hb, hbr, hjb]
            | none => simp [hj, hb, hbr]

/-- Counterexample to claim C2 as stated: on a plain-prose reply (no parsable
JSON anywhere) the analysis returns the default report with `success = true`,
not a failure flag. -/
theorem C2_counterexample :
    (analyze_website noneOracle noneStr noneStr (Except.ok proseReply) false 0).2 = true
    ∧ (analyze_website noneOracle noneStr noneStr (Except.ok proseReply) false 0).1.overall_score
        = some 65
    ∧ (analyze_website noneOracle noneStr noneStr (Except.ok proseReply) false 0).1.issues
        = create_default_response.issues := by decide

/-- Claim C2 (amended): a malformed (non-raising) reply yields the default
report — overall score 65, one "Error Processing" issue, health score
recomputed from 65 — together with `success = true`; the failure flag
`success = false` (with the untouched default report) arises exactly when the
model invocation raises. -/
theorem C2_default_success (jloads : String → Option AnalysisData)
    (findBlock findBrace : String → Option String) (text : String) (rep : Bool) (c : ℤ)
    (hparse : parse_json_from_response jloads findBlock findBrace text
        = create_default_response) :
    analyze_website jloads findBlock findBrace (Except.ok text) rep c
      = ({ create_default_response with
           health_score := some (calculate_health_score 65 rep c) }, true)
    ∧ ∀ e, analyze_website jloads findBlock findBrace (Except.error e) rep c
        = (create_default_response, false) := by
  constructor
  · unfold analyze_website
    simp only [hparse]
    rfl
  · intro e
    rfl

/-- Witness for C2 (amended) at a concrete prose reply. -/
theorem C2_witness :
    (parse_json_from_response noneOracle noneStr noneStr proseReply = create_default_response)
    ∧ analyze_website noneOracle noneStr noneStr (Except.ok proseReply) false 0
        = ({ create_default_response with
             health_score := some (calculate_health_score 65 false 0) }, true) :=
  ⟨by decide, (C2_default_success noneOracle noneStr noneStr proseReply false 0 (by decide)).1⟩
